import Mathlib

/-!
# LivecastServer — shallow embedding and verification

This file embeds the core logic of `src/index.js` (class `LivecastServer`)
and `src/utils/utils.js` of the LivecastServer repository in Lean 4, and
proves (or refutes) the frozen specification claims about it.

Modelling conventions:
* JavaScript timestamps are `Nat` milliseconds; age computations use `Int`
  to mirror JS number subtraction (which may be negative).
* Asynchronous control flow is collapsed to explicit outcome parameters:
  a `serve` call's race between `_makeSnapshot(page)` and the timeout from
  `addTimeoutToPromise` is represented by a `ServeOutcome` value saying
  which side of the race won and which fallible steps succeeded.
* Side effects (artifact writes, requested deletions, broadcasts, log
  calls) are collected into an explicit effect list.
-/

namespace Livecast

/-- One browser snapshot.  The fields `pageUrl`, `htmlContent` and
`screenshotIndex` are built by `_makeSnapshot` in `src/index.js`.
Modelled from the spec: the `Snapshot` class itself lives in
`src/snapshot.js`, which is required by `src/index.js` but absent from the
sources; per the spec's data model, `createdAt` is a timestamp set at
construction and `age()` is the elapsed time since `createdAt`, recomputed
on each query. -/
structure Snapshot where
  pageUrl : String
  htmlContent : String
  screenshotIndex : Option Nat
  createdAt : Nat
deriving DecidableEq, Repr

/-- Modelled from the spec: `age()` is elapsed time since `createdAt`
(`src/snapshot.js` is absent from the sources).  JS subtraction of
timestamps may be negative, hence `Int`. -/
def Snapshot.age (snap : Snapshot) (now : Nat) : Int :=
  (now : Int) - (snap.createdAt : Int)

/-- The page handle, reduced to the data the capture reads from it
(`page.url()` and `page.content()`). -/
structure Page where
  pageUrl : String
  htmlContent : String
deriving DecidableEq, Repr

/-- Which fallible steps of `_makeSnapshot` succeed: `captureOk` is the
`Promise.all` of `page.content()` and `page.screenshot()` resolving, and
`writeOk` is the `writeFile` of the screenshot resolving. -/
structure MakeOutcome where
  captureOk : Bool
  writeOk : Bool
deriving DecidableEq, Repr

/-- How the race set up by `addTimeoutToPromise` in `serve` resolves:
either `_makeSnapshot` completes (with the given step outcomes) before the
timeout fires, or the timeout fires first. -/
inductive ServeOutcome where
  | completed (mk : MakeOutcome)
  | timedOut
deriving DecidableEq, Repr

/-- Observable side effects of the server operations. -/
inductive Effect where
  | writeArtifact (index : Nat)
  | deleteArtifact (index : Nat)
  | broadcastSnapshot (snap : Snapshot)
  | logDebug (msg : String)
  | logInfo (msg : String)
  | logException (msg : String)
deriving DecidableEq, Repr

/-- The mutable fields of a `LivecastServer` instance together with its
configuration, as set up by the constructor (`src/index.js`, lines
74-107).  `clientCount` is `Int` because JS decrements it without a lower
bound. -/
structure ServerState where
  maxScreenshotFiles : Nat
  snapshotTimeoutMillis : Nat
  maxSnapshotFrequencyMillis : Nat
  useScreenshots : Bool
  lastSnapshot : Option Snapshot
  lastScreenshotIndex : Nat
  clientCount : Int
  servingSnapshot : Bool
  port : Nat
deriving DecidableEq, Repr

/-- Constructor options with their default values (`src/index.js`,
lines 75-82).  The `promptHandlers` mapping is kept separate because it
holds functions. -/
structure Options where
  maxScreenshotFiles : Nat := 10
  snapshotTimeoutSecs : Nat := 3
  maxSnapshotFrequencySecs : Nat := 2
  useScreenshots : Bool := false
deriving DecidableEq, Repr

/-- Leading decimal digits of a character list, `none` when there is no
leading digit (giving JS `NaN`). -/
def leadingNat (cs : List Char) : Option Nat :=
  let ds := cs.takeWhile Char.isDigit
  if ds.isEmpty then none
  else some (ds.foldl (fun a c => a * 10 + (c.toNat - 48)) 0)

/-- Model of JS `parseInt(s, 10)`: skip leading whitespace, optional sign,
then the longest prefix of decimal digits; `none` models `NaN`. -/
def parseIntJS (s : String) : Option Int :=
  let cs := s.toList.dropWhile (fun c => c = ' ' || c = '\t' || c = '\n' || c = '\r')
  match cs with
  | '-' :: rest => (leadingNat rest).map (fun n => -(n : Int))
  | '+' :: rest => (leadingNat rest).map (fun n => (n : Int))
  | _ => (leadingNat cs).map (fun n => (n : Int))

/-- Result of `_setupHttpServer`: the validated port.  The HTTP server and
socket.io setup only happen after validation succeeds, so an `Except.ok`
value witnesses that the server was created. -/
structure HttpSetup where
  port : Nat
deriving DecidableEq, Repr

/-- `_setupHttpServer` (`src/index.js`, lines 283-314): parses the
container-port environment value with `parseInt(…, 10)` and throws unless
`0 <= port && port <= 65535` (a `NaN` port fails both comparisons).  The
`http.createServer()` call comes only after the check, so on error no HTTP
server is set up. -/
def setupHttpServer (containerPort : String) : Except String HttpSetup :=
  match parseIntJS containerPort with
  | none => .error "Cannot start LivecastServer - invalid port"
  | some p =>
      if 0 ≤ p ∧ p ≤ 65535 then .ok ⟨p.toNat⟩
      else .error "Cannot start LivecastServer - invalid port"

/-- The constructor (`src/index.js`, lines 74-107): initialises all
fields (`lastSnapshot = null`, `lastScreenshotIndex = 0`,
`clientCount = 0`, `servingSnapshot = false`) and then calls
`_setupHttpServer`, whose throw propagates out of `new`. -/
def mkServer (opts : Options) (containerPort : String) : Except String ServerState :=
  match setupHttpServer containerPort with
  | .error e => .error e
  | .ok setup => .ok
      { maxScreenshotFiles := opts.maxScreenshotFiles
        snapshotTimeoutMillis := opts.snapshotTimeoutSecs * 1000
        maxSnapshotFrequencyMillis := opts.maxSnapshotFrequencySecs * 1000
        useScreenshots := opts.useScreenshots
        lastSnapshot := none
        lastScreenshotIndex := 0
        clientCount := 0
        servingSnapshot := false
        port := setup.port }

/-- `hasClients` (`src/index.js`, lines 213-216):
`return this.lastSnapshot ? this.clientCount > 0 : true;`. -/
def hasClients (s : ServerState) : Bool :=
  match s.lastSnapshot with
  | some _ => decide (0 < s.clientCount)
  | none => true

/-- The throttle condition of `serve` (`src/index.js`, line 183):
`this.lastSnapshot && this.lastSnapshot.age() < this.maxSnapshotFrequencyMillis`. -/
def throttled (s : ServerState) (now : Nat) : Bool :=
  match s.lastSnapshot with
  | some snap => decide (snap.age now < (s.maxSnapshotFrequencyMillis : Int))
  | none => false

/-- Socket connect handler effect on state (`src/index.js`, line 321). -/
def onConnect (s : ServerState) : ServerState :=
  { s with clientCount := s.clientCount + 1 }

/-- Socket disconnect handler effect on state (`src/index.js`, line 324). -/
def onDisconnect (s : ServerState) : ServerState :=
  { s with clientCount := s.clientCount - 1 }

/-- Errors a `_makeSnapshot` run can raise to `serve`. -/
inductive MakeError where
  | captureFailed
  | writeFailed
deriving DecidableEq, Repr

/-- `_makeSnapshot` (`src/index.js`, lines 238-261), for a run that
completes.  Steps in source order: await `Promise.all` of content and
screenshot (failure propagates, no state touched); post-increment
`lastScreenshotIndex` when screenshots are enabled; `writeFile` the
screenshot (failure propagates after the index increment); when
`screenshotIndex > maxScreenshotFiles - 1` (JS arithmetic, hence `Int`)
request an async delete of `screenshotIndex - maxScreenshotFiles`; build
the `Snapshot` and assign `lastSnapshot`. -/
def makeSnapshot (s : ServerState) (page : Page) (mk : MakeOutcome) (now : Nat) :
    ServerState × List Effect × Except MakeError Snapshot :=
  let logs := [Effect.logInfo "Making live view snapshot."]
  if mk.captureOk = false then
    (s, logs, .error .captureFailed)
  else if s.useScreenshots then
    let screenshotIndex := s.lastScreenshotIndex
    let s1 := { s with lastScreenshotIndex := s.lastScreenshotIndex + 1 }
    if mk.writeOk = false then
      (s1, logs, .error .writeFailed)
    else
      let delEffs : List Effect :=
        if (screenshotIndex : Int) > (s.maxScreenshotFiles : Int) - 1 then
          [Effect.deleteArtifact (screenshotIndex - s.maxScreenshotFiles)]
        else []
      let snap : Snapshot :=
        { pageUrl := page.pageUrl, htmlContent := page.htmlContent
          screenshotIndex := some screenshotIndex, createdAt := now }
      ({ s1 with lastSnapshot := some snap },
       logs ++ [Effect.writeArtifact screenshotIndex] ++ delEffs, .ok snap)
  else
    let snap : Snapshot :=
      { pageUrl := page.pageUrl, htmlContent := page.htmlContent
        screenshotIndex := none, createdAt := now }
    ({ s with lastSnapshot := some snap }, logs, .ok snap)

/-- `serve` (`src/index.js`, lines 171-201).  Three admission checks in
source order, each an early return; then the in-flight flag is set, the
capture races the timeout (`ServeOutcome`), success is pushed via
`_pushSnapshot` (a broadcast), any error or timeout is caught and logged,
and the `finally` clause clears the in-flight flag.  When the timeout wins
the race the awaited promise has not resolved, so none of
`_makeSnapshot`'s state updates have been observed by the returning call. -/
def serve (s : ServerState) (page : Page) (oc : ServeOutcome) (now : Nat) :
    ServerState × List Effect :=
  if hasClients s = false then
    (s, [Effect.logDebug "Live view server has no clients, skipping snapshot."])
  else if s.servingSnapshot then
    (s, [Effect.logDebug "Already serving a snapshot, not starting a new one."])
  else if throttled s now then
    (s, [Effect.logDebug "Snapshot was already served recently."])
  else
    let s0 := { s with servingSnapshot := true }
    match oc with
    | .timedOut =>
        ({ s0 with servingSnapshot := false },
         [Effect.logException "Serving of page for live view failed"])
    | .completed mk =>
        match makeSnapshot s0 page mk now with
        | (s1, effs, .ok snap) =>
            ({ s1 with servingSnapshot := false },
             effs ++ [Effect.broadcastSnapshot snap])
        | (s1, effs, .error _) =>
            ({ s1 with servingSnapshot := false },
             effs ++ [Effect.logException "Serving of page for live view failed"])

/-- An inbound prompt answer after parsing: the code reads
`response.action` to pick a handler; the remaining payload is opaque. -/
structure Response where
  action : String
  payload : String
deriving DecidableEq, Repr

/-- The caller-supplied `promptHandlers` mapping from action name to
handler, as an association list.  `α` is the handler result type. -/
def HandlerMap (α : Type) : Type := List (String × (Response → α))

/-- JS property lookup `this.promptHandlers[response.action]`. -/
def lookupHandler {α : Type} (m : HandlerMap α) (action : String) :
    Option (Response → α) :=
  match m with
  | [] => none
  | (a, h) :: rest => if a = action then some h else lookupHandler rest action

/-- Trace events of a prompt round trip. -/
inductive PromptStep where
  | broadcastPrompt (options : String)
  | awaitAnswer
  | resolveCaller (r : Response)
  | warnNoHandler (r : Response)
  | invokeHandler (r : Response)
deriving DecidableEq, Repr

/-- `handleResponse` (`src/index.js`, lines 119-125): when
`promptHandlers[response.action]` is absent, log a warning and return
`undefined` (`none`); otherwise invoke the handler and return its result. -/
def handleResponse {α : Type} (m : HandlerMap α) (r : Response) :
    List PromptStep × Option α :=
  match lookupHandler m r.action with
  | none => ([PromptStep.warnNoHandler r], none)
  | some h => ([PromptStep.invokeHandler r], some (h r))

/-- `prompt` (`src/index.js`, lines 109-117) run to completion against one
inbound answer (already parsed by the `promptAnswer` socket handler,
lines 327-337): broadcast a `prompt` event with the caller's options,
suspend on the stored resolver, resume with the answer once
`resolveMessagePromise` fires, then call `handleResponse` on it.  The
function body has no `return` statement, so the async call resolves with
`undefined` (`none`), discarding `handleResponse`'s result. -/
def promptRun {α : Type} (m : HandlerMap α) (options : String) (answer : Response) :
    List PromptStep × Option Response :=
  ([PromptStep.broadcastPrompt options, PromptStep.awaitAnswer,
    PromptStep.resolveCaller answer] ++ (handleResponse m answer).1,
   none)

/-- Driver: a sequence of completed, fully successful `_makeSnapshot` runs
(each capture and write resolves), accumulating effects and the produced
snapshots in order. -/
def runCaptures (s : ServerState) : List (Page × Nat) → ServerState × List Effect × List Snapshot
  | [] => (s, [], [])
  | (page, t) :: rest =>
      let step := makeSnapshot s page ⟨true, true⟩ t
      let r := runCaptures step.1 rest
      (r.1, step.2.1 ++ r.2.1,
       match step.2.2 with
       | .ok snap => snap :: r.2.2
       | .error _ => r.2.2)

/-- Indices of artifact writes in an effect list. -/
def writeIndices (effs : List Effect) : List Nat :=
  effs.filterMap (fun e => match e with
    | .writeArtifact i => some i
    | _ => none)

/-- Indices of requested artifact deletions in an effect list. -/
def deleteIndices (effs : List Effect) : List Nat :=
  effs.filterMap (fun e => match e with
    | .deleteArtifact i => some i
    | _ => none)

/-- Indices written and never requested for deletion: what remains on disk
once all requested asynchronous deletions have completed. -/
def retainedIndices (effs : List Effect) : List Nat :=
  (writeIndices effs).filter (fun i => !(deleteIndices effs).contains i)

/-- An effect that is only a log call: no artifact write or deletion, no
broadcast. -/
def Effect.isLogOnly : Effect → Bool
  | .logDebug _ => true
  | .logInfo _ => true
  | .logException _ => true
  | _ => false

/-! ## Helper lemmas -/

/-- A fully successful screenshot-enabled `_makeSnapshot` run, in closed
form (the JS retention test `screenshotIndex > maxScreenshotFiles - 1`
over numbers is equivalent to `maxScreenshotFiles ≤ screenshotIndex` over
naturals). -/
lemma makeSnapshot_success (s : ServerState) (page : Page) (now : Nat)
    (hu : s.useScreenshots = true) :
    makeSnapshot s page ⟨true, true⟩ now
      = ({ s with
            lastScreenshotIndex := s.lastScreenshotIndex + 1
            lastSnapshot := some
              { pageUrl := page.pageUrl
                htmlContent := page.htmlContent
                screenshotIndex := some s.lastScreenshotIndex
                createdAt := now } },
         [Effect.logInfo "Making live view snapshot.",
          Effect.writeArtifact s.lastScreenshotIndex]
           ++ (if s.maxScreenshotFiles ≤ s.lastScreenshotIndex then
                 [Effect.deleteArtifact (s.lastScreenshotIndex - s.maxScreenshotFiles)]
               else []),
         .ok { pageUrl := page.pageUrl
               htmlContent := page.htmlContent
               screenshotIndex := some s.lastScreenshotIndex
               createdAt := now }) := by
  have hc : ((s.lastScreenshotIndex : Int) > (s.maxScreenshotFiles : Int) - 1)
      ↔ s.maxScreenshotFiles ≤ s.lastScreenshotIndex := by omega
  by_cases hK : s.maxScreenshotFiles ≤ s.lastScreenshotIndex <;>
    simp [makeSnapshot, hu, hc, hK]

/-- Cumulative behaviour of a run of fully successful screenshot-enabled
captures, for an arbitrary starting index. -/
lemma runCaptures_spec (inputs : List (Page × Nat)) :
    ∀ (s : ServerState), s.useScreenshots = true →
    (runCaptures s inputs).1.lastScreenshotIndex = s.lastScreenshotIndex + inputs.length
    ∧ (runCaptures s inputs).1.maxScreenshotFiles = s.maxScreenshotFiles
    ∧ (runCaptures s inputs).1.useScreenshots = true
    ∧ writeIndices (runCaptures s inputs).2.1
        = List.range' s.lastScreenshotIndex inputs.length
    ∧ deleteIndices (runCaptures s inputs).2.1
        = (List.range' s.lastScreenshotIndex inputs.length).filterMap
            (fun i => if s.maxScreenshotFiles ≤ i then some (i - s.maxScreenshotFiles) else none)
    ∧ (runCaptures s inputs).2.2.map Snapshot.screenshotIndex
        = (List.range' s.lastScreenshotIndex inputs.length).map some := by
  induction inputs with
  | nil => intro s hu; simp [runCaptures, writeIndices, deleteIndices, hu]
  | cons pt rest ih =>
      obtain ⟨page, t⟩ := pt
      intro s hu
      have hstep := makeSnapshot_success s page t hu
      obtain ⟨ih1, ih2, ih3, ih4, ih5, ih6⟩ := ih
        { s with
          lastScreenshotIndex := s.lastScreenshotIndex + 1
          lastSnapshot := some
            { pageUrl := page.pageUrl
              htmlContent := page.htmlContent
              screenshotIndex := some s.lastScreenshotIndex
              createdAt := t } }
        (by simpa using hu)
      simp only [runCaptures, hstep] at ih1 ih2 ih3 ih4 ih5 ih6 ⊢
      simp only [List.length_cons, List.range'_succ, List.filterMap_cons, List.map_cons]
      refine ⟨by simp [ih1]; omega, by simpa using ih2, by simpa using ih3, ?_, ?_, ?_⟩
      · rcases le_or_lt s.maxScreenshotFiles s.lastScreenshotIndex with hK | hK
        · simp only [if_pos hK]
          simp_all [writeIndices, List.range'_succ]
        · simp only [if_neg (Nat.not_le.mpr hK)]
          simp_all [writeIndices, List.range'_succ]
      · rcases le_or_lt s.maxScreenshotFiles s.lastScreenshotIndex with hK | hK
        · simp only [if_pos hK]
          simp_all [deleteIndices, List.range'_succ]
        · simp only [if_neg (Nat.not_le.mpr hK)]
          simp_all [deleteIndices, List.range'_succ]
      · simpa using ih6

/-- Shifting a `range` through the retention filter yields the deleted
prefix `0, …, N−K−1`. -/
lemma filterMap_range_sub (K : Nat) :
    ∀ N, (List.range N).filterMap
        (fun i => if K ≤ i then some (i - K) else none) = List.range (N - K) := by
  intro N
  induction N with
  | zero => simp
  | succ n ih =>
      rw [List.range_succ, List.filterMap_append, ih]
      by_cases h : K ≤ n
      · rw [show n + 1 - K = (n - K) + 1 from by omega, List.range_succ]
        simp [h]
      · simp [h, show n + 1 - K = 0 from by omega, show n - K = 0 from by omega]

/-- Counting the elements of `range n` outside `range m`. -/
lemma length_filter_not_range (m : Nat) :
    ∀ n, ((List.range n).filter
        (fun i => !((List.range m).contains i))).length = n - m := by
  intro n
  induction n with
  | zero => simp
  | succ n ih =>
      rw [List.range_succ, List.filter_append, List.length_append, ih]
      by_cases h : n < m
      · simp [h]
        omega
      · simp [h]
        omega

/-- `_makeSnapshot` when the initial `Promise.all` rejects: no state is
touched and the error propagates. -/
lemma makeSnapshot_captureFail (s : ServerState) (page : Page) (mk : MakeOutcome)
    (now : Nat) (h : mk.captureOk = false) :
    makeSnapshot s page mk now
      = (s, [Effect.logInfo "Making live view snapshot."], .error .captureFailed) := by
  simp [makeSnapshot, h]

/-- A `serve` call that exits through one of the three admission checks
returns the state unchanged with only log effects. -/
lemma serve_skip (s : ServerState) (page : Page) (oc : ServeOutcome) (now : Nat)
    (h : hasClients s = false ∨ s.servingSnapshot = true ∨ throttled s now = true) :
    (serve s page oc now).1 = s
    ∧ ∀ e ∈ (serve s page oc now).2, e.isLogOnly = true := by
  unfold serve
  split_ifs with h1 h2 h3
  · simp [Effect.isLogOnly]
  · simp [Effect.isLogOnly]
  · simp [Effect.isLogOnly]
  · rcases h with h | h | h <;> simp_all

/-- Any `serve` call either leaves `lastSnapshot` unchanged, or was
admitted through all three checks and installed a snapshot whose
`createdAt` is the call's current time. -/
lemma serve_lastSnapshot_cases (s : ServerState) (page : Page) (oc : ServeOutcome)
    (now : Nat) :
    (serve s page oc now).1.lastSnapshot = s.lastSnapshot
    ∨ ((serve s page oc now).1.lastSnapshot.map Snapshot.createdAt = some now
        ∧ hasClients s = true ∧ s.servingSnapshot = false ∧ throttled s now = false) := by
  unfold serve
  split_ifs with h1 h2 h3
  · exact Or.inl rfl
  · exact Or.inl rfl
  · exact Or.inl rfl
  · replace h1 : hasClients s = true := by simpa using h1
    replace h2 : s.servingSnapshot = false := by simpa using h2
    replace h3 : throttled s now = false := by simpa using h3
    cases oc with
    | timedOut => exact Or.inl rfl
    | completed mk =>
        dsimp only
        by_cases hc : mk.captureOk = false
        · rw [makeSnapshot_captureFail _ _ _ _ hc]
          exact Or.inl rfl
        · unfold makeSnapshot
          split_ifs with hus hw
          · exact Or.inl rfl
          · exact Or.inr ⟨rfl, h1, h2, h3⟩
          · exact Or.inr ⟨rfl, h1, h2, h3⟩

/-! ## Fixtures for witnesses -/

/-- A concrete page used by the closed witness theorems. -/
def examplePage : Page :=
  { pageUrl := "https://www.example.com", htmlContent := "<html></html>" }

/-- A concrete snapshot used by the closed witness theorems. -/
def exampleSnapshot : Snapshot :=
  { pageUrl := "https://www.example.com", htmlContent := "<html></html>"
    screenshotIndex := some 0, createdAt := 1000 }

/-- A concrete freshly-constructed server with one client, screenshots
enabled and a retention limit of 3. -/
def exampleState : ServerState :=
  { maxScreenshotFiles := 3, snapshotTimeoutMillis := 3000
    maxSnapshotFrequencyMillis := 2000, useScreenshots := true
    lastSnapshot := none, lastScreenshotIndex := 0, clientCount := 1
    servingSnapshot := false, port := 4321 }

/-- `exampleState` after a first snapshot has been produced. -/
def exampleStateWithSnap : ServerState :=
  { exampleState with lastSnapshot := some exampleSnapshot, lastScreenshotIndex := 1 }

/-- `exampleState` with a capture marked in flight. -/
def exampleBusyState : ServerState :=
  { exampleState with servingSnapshot := true }

/-- A server with a prior snapshot and zero connected clients. -/
def exampleNoClientState : ServerState :=
  { exampleStateWithSnap with clientCount := 0 }

/-- A freshly-constructed server (no snapshot yet) with zero clients. -/
def exampleFreshNoClients : ServerState :=
  { exampleState with clientCount := 0 }

/-- The snapshot a successful `serve` of `examplePage` at time 4000
produces from `exampleStateWithSnap`. -/
def exampleSnapshot2 : Snapshot :=
  { pageUrl := "https://www.example.com", htmlContent := "<html></html>"
    screenshotIndex := some 1, createdAt := 4000 }

/-! ## Claim theorems -/

/-- C1: for every `serve(page)` call whose capture procedure does not
complete within the configured timeout (`snapshotTimeoutMillis`), the call
produces no Snapshot update — the most-recent-Snapshot reference
`lastSnapshot` is not changed by that call — and the in-flight flag
`servingSnapshot` is false after the call returns. -/
theorem serve_timeout_no_snapshot_update (s : ServerState) (page : Page) (now : Nat)
    (h : s.servingSnapshot = false) :
    (serve s page .timedOut now).1.lastSnapshot = s.lastSnapshot
    ∧ (serve s page .timedOut now).1.servingSnapshot = false := by
  unfold serve
  split_ifs <;> simp_all

/-- Closed instance of C1 at a concrete admitted call. -/
theorem serve_timeout_no_snapshot_update_witness :
    exampleState.servingSnapshot = false
    ∧ ((serve exampleState examplePage .timedOut 100).1.lastSnapshot
          = exampleState.lastSnapshot
       ∧ (serve exampleState examplePage .timedOut 100).1.servingSnapshot = false) :=
  ⟨rfl, serve_timeout_no_snapshot_update exampleState examplePage 100 rfl⟩

/-- C7: `serve` never raises — the embedding is a total function whose
error and timeout paths end in log effects only — and for every outcome
the in-flight flag is cleared before `serve` returns; a `serve` call
arriving while a capture is in flight returns immediately, with state
unchanged and no second capture started (its result is one of the two
pre-capture early returns). -/
theorem serve_swallows_failures :
    (∀ (s : ServerState) (page : Page) (oc : ServeOutcome) (now : Nat),
        s.servingSnapshot = false → (serve s page oc now).1.servingSnapshot = false)
    ∧ (∀ (s : ServerState) (page : Page) (oc : ServeOutcome) (now : Nat),
        s.servingSnapshot = true →
        serve s page oc now
            = (s, [Effect.logDebug "Already serving a snapshot, not starting a new one."])
          ∨ serve s page oc now
            = (s, [Effect.logDebug "Live view server has no clients, skipping snapshot."]))
    ∧ (∀ (s : ServerState) (page : Page) (now : Nat),
        ∀ e ∈ (serve s page .timedOut now).2, e.isLogOnly = true)
    ∧ (∀ (s : ServerState) (page : Page) (mk : MakeOutcome) (now : Nat),
        mk.captureOk = false →
        ∀ e ∈ (serve s page (.completed mk) now).2, e.isLogOnly = true) := by
  refine ⟨?_, ?_, ?_, ?_⟩
  · intro s page oc now h
    unfold serve
    split_ifs
    · exact h
    · exact h
    · exact h
    · cases oc with
      | timedOut => rfl
      | completed mk =>
          dsimp only
          rcases hms : makeSnapshot { s with servingSnapshot := true } page mk now
            with ⟨s1, effs, res⟩
          cases res <;> simp [hms]
  · intro s page oc now h
    unfold serve
    split_ifs with h1
    · exact Or.inr rfl
    · exact Or.inl rfl
  · intro s page now
    unfold serve
    split_ifs <;> simp [Effect.isLogOnly]
  · intro s page mk now hc
    unfold serve
    split_ifs
    · simp [Effect.isLogOnly]
    · simp [Effect.isLogOnly]
    · simp [Effect.isLogOnly]
    · dsimp only
      rw [makeSnapshot_captureFail _ _ _ _ hc]
      simp [Effect.isLogOnly]

/-- Closed instance of C7 at concrete calls. -/
theorem serve_swallows_failures_witness :
    (exampleState.servingSnapshot = false
      ∧ (serve exampleState examplePage .timedOut 5).1.servingSnapshot = false)
    ∧ (exampleBusyState.servingSnapshot = true
      ∧ (serve exampleBusyState examplePage (.completed ⟨true, true⟩) 5
            = (exampleBusyState,
               [Effect.logDebug "Already serving a snapshot, not starting a new one."])
          ∨ serve exampleBusyState examplePage (.completed ⟨true, true⟩) 5
            = (exampleBusyState,
               [Effect.logDebug "Live view server has no clients, skipping snapshot."])))
    ∧ ((⟨false, true⟩ : MakeOutcome).captureOk = false
      ∧ ∀ e ∈ (serve exampleState examplePage (.completed ⟨false, true⟩) 5).2,
          e.isLogOnly = true) :=
  ⟨⟨rfl, (serve_swallows_failures.1 exampleState examplePage .timedOut 5 rfl)⟩,
   ⟨rfl, (serve_swallows_failures.2.1 exampleBusyState examplePage (.completed ⟨true, true⟩) 5 rfl)⟩,
   ⟨rfl, (serve_swallows_failures.2.2.2 exampleState examplePage ⟨false, true⟩ 5 rfl)⟩⟩

/-- C10: whenever `serve` exits through any of its three admission-control
skips (no interested observers, capture already in flight, or last
Snapshot younger than the minimum interval), all observable server state
is unchanged — `lastSnapshot`, `lastScreenshotIndex`, `servingSnapshot`
and `clientCount` keep their prior values — no artifact is written or
deleted, and no event is broadcast (only log effects are produced). -/
theorem serve_skip_no_observable_change (s : ServerState) (page : Page)
    (oc : ServeOutcome) (now : Nat)
    (h : hasClients s = false ∨ s.servingSnapshot = true ∨ throttled s now = true) :
    (serve s page oc now).1 = s
    ∧ ∀ e ∈ (serve s page oc now).2, e.isLogOnly = true :=
  serve_skip s page oc now h

/-- Closed instance of C10 at a concrete in-flight skip. -/
theorem serve_skip_no_observable_change_witness :
    (hasClients exampleBusyState = false ∨ exampleBusyState.servingSnapshot = true
      ∨ throttled exampleBusyState 0 = true)
    ∧ ((serve exampleBusyState examplePage (.completed ⟨true, true⟩) 0).1 = exampleBusyState
       ∧ ∀ e ∈ (serve exampleBusyState examplePage (.completed ⟨true, true⟩) 0).2,
           e.isLogOnly = true) :=
  ⟨Or.inr (Or.inl rfl),
   serve_skip_no_observable_change exampleBusyState examplePage (.completed ⟨true, true⟩) 0
     (Or.inr (Or.inl rfl))⟩

/-- C5: `hasClients` returns true iff the connected-client count is
positive or no Snapshot has ever been produced; consequently with zero
observers and no prior Snapshot a fully successful `serve` call proceeds
past the observer check and installs a snapshot, while with zero observers
and a prior Snapshot `serve` returns at the observer check without
capturing. -/
theorem hasClients_characterisation :
    (∀ s : ServerState,
        hasClients s = true ↔ (0 < s.clientCount ∨ s.lastSnapshot = none))
    ∧ (∀ (s : ServerState) (page : Page) (now : Nat),
        s.clientCount = 0 → s.lastSnapshot = none → s.servingSnapshot = false →
        ((serve s page (.completed ⟨true, true⟩) now).1.lastSnapshot).isSome = true)
    ∧ (∀ (s : ServerState) (page : Page) (oc : ServeOutcome) (now : Nat)
          (snap : Snapshot),
        s.clientCount = 0 → s.lastSnapshot = some snap →
        serve s page oc now
          = (s, [Effect.logDebug "Live view server has no clients, skipping snapshot."])) := by
  refine ⟨?_, ?_, ?_⟩
  · intro s
    unfold hasClients
    cases h : s.lastSnapshot <;> simp [h]
  · intro s page now hc hsnap hserv
    have h1 : hasClients s = true := by simp [hasClients, hsnap]
    have h3 : throttled s now = false := by simp [throttled, hsnap]
    unfold serve
    split_ifs with a b c
    · simp_all
    · simp_all
    · simp_all
    · dsimp only
      unfold makeSnapshot
      split_ifs <;> simp_all
  · intro s page oc now snap hc hsnap
    have h1 : hasClients s = false := by simp [hasClients, hsnap, hc]
    unfold serve
    rw [h1]
    simp

/-- Closed instance of C5: a successful bootstrap capture with zero
clients, and a skipped call with zero clients and a prior snapshot. -/
theorem hasClients_characterisation_witness :
    (exampleFreshNoClients.clientCount = 0
      ∧ exampleFreshNoClients.lastSnapshot = none
      ∧ exampleFreshNoClients.servingSnapshot = false
      ∧ ((serve exampleFreshNoClients examplePage (.completed ⟨true, true⟩) 7).1.lastSnapshot).isSome
          = true)
    ∧ (exampleNoClientState.clientCount = 0
      ∧ exampleNoClientState.lastSnapshot = some exampleSnapshot
      ∧ serve exampleNoClientState examplePage .timedOut 7
          = (exampleNoClientState,
             [Effect.logDebug "Live view server has no clients, skipping snapshot."])) :=
  ⟨⟨rfl, rfl, rfl,
    hasClients_characterisation.2.1 exampleFreshNoClients examplePage 7 rfl rfl rfl⟩,
   ⟨rfl, rfl,
    hasClients_characterisation.2.2 exampleNoClientState examplePage .timedOut 7
      exampleSnapshot rfl rfl⟩⟩

/-- C6: a `serve` call made while the previous Snapshot's age is strictly
below `maxSnapshotFrequencyMillis` returns with no state change and no
capture; and whenever a `serve` call replaces the previous Snapshot with a
new one, the new `createdAt` is at least the minimum interval after the
previous `createdAt`. -/
theorem serve_throttle_interval :
    (∀ (s : ServerState) (page : Page) (oc : ServeOutcome) (now : Nat)
          (snap : Snapshot),
        s.lastSnapshot = some snap →
        snap.age now < (s.maxSnapshotFrequencyMillis : Int) →
        (serve s page oc now).1 = s
        ∧ ∀ e ∈ (serve s page oc now).2, e.isLogOnly = true)
    ∧ (∀ (s : ServerState) (page : Page) (oc : ServeOutcome) (now : Nat)
          (snap snap' : Snapshot),
        s.lastSnapshot = some snap →
        (serve s page oc now).1.lastSnapshot = some snap' →
        snap' ≠ snap →
        (s.maxSnapshotFrequencyMillis : Int)
          ≤ (snap'.createdAt : Int) - (snap.createdAt : Int)) := by
  constructor
  · intro s page oc now snap hsnap hage
    exact serve_skip s page oc now
      (Or.inr (Or.inr (by simp [throttled, hsnap, hage])))
  · intro s page oc now snap snap' hsnap hres hne
    rcases serve_lastSnapshot_cases s page oc now with hcase | ⟨hcreated, _, _, hthr⟩
    · rw [hcase, hsnap] at hres
      exact absurd (Option.some_injective _ hres).symm hne
    · rw [hres] at hcreated
      simp only [Option.map_some', Option.some_inj] at hcreated
      rw [throttled, hsnap] at hthr
      simp only [decide_eq_false_iff_not, not_lt, Snapshot.age] at hthr
      omega

/-- Closed instance of C6: a throttled call at age 500 < 2000, and a
successful capture at age 3000 ≥ 2000 whose new snapshot is 3000ms newer. -/
theorem serve_throttle_interval_witness :
    (exampleStateWithSnap.lastSnapshot = some exampleSnapshot
      ∧ Snapshot.age exampleSnapshot 1500
          < (exampleStateWithSnap.maxSnapshotFrequencyMillis : Int)
      ∧ ((serve exampleStateWithSnap examplePage .timedOut 1500).1 = exampleStateWithSnap
        ∧ ∀ e ∈ (serve exampleStateWithSnap examplePage .timedOut 1500).2,
            e.isLogOnly = true))
    ∧ (exampleStateWithSnap.lastSnapshot = some exampleSnapshot
      ∧ (serve exampleStateWithSnap examplePage (.completed ⟨true, true⟩) 4000).1.lastSnapshot
          = some exampleSnapshot2
      ∧ exampleSnapshot2 ≠ exampleSnapshot
      ∧ (exampleStateWithSnap.maxSnapshotFrequencyMillis : Int)
          ≤ (exampleSnapshot2.createdAt : Int) - (exampleSnapshot.createdAt : Int)) :=
  ⟨⟨rfl, by decide,
    serve_throttle_interval.1 exampleStateWithSnap examplePage .timedOut 1500
      exampleSnapshot rfl (by decide)⟩,
   ⟨rfl, by decide, by decide,
    serve_throttle_interval.2 exampleStateWithSnap examplePage (.completed ⟨true, true⟩)
      4000 exampleSnapshot exampleSnapshot2 rfl (by decide) (by decide)⟩⟩

/-- C3: with retention limit `K = maxScreenshotFiles`, after `N`
successful screenshot-enabled captures the artifacts written are exactly
indices `0 … N−1` and deletion has been requested for exactly the indices
`0 … N−K−1`, so once the asynchronous deletions complete at most `K`
artifacts remain on disk; and a single capture step requests deletion of
`i − K` exactly when it writes an artifact with index `i > K − 1`. -/
theorem artifact_retention (s : ServerState) (inputs : List (Page × Nat))
    (hu : s.useScreenshots = true) (h0 : s.lastScreenshotIndex = 0) :
    writeIndices (runCaptures s inputs).2.1 = List.range inputs.length
    ∧ deleteIndices (runCaptures s inputs).2.1
        = List.range (inputs.length - s.maxScreenshotFiles)
    ∧ (retainedIndices (runCaptures s inputs).2.1).length ≤ s.maxScreenshotFiles
    ∧ (∀ (s2 : ServerState) (page : Page) (now : Nat), s2.useScreenshots = true →
        deleteIndices (makeSnapshot s2 page ⟨true, true⟩ now).2.1
          = if s2.maxScreenshotFiles ≤ s2.lastScreenshotIndex then
              [s2.lastScreenshotIndex - s2.maxScreenshotFiles]
            else []) := by
  obtain ⟨-, -, -, hw, hd, -⟩ := runCaptures_spec inputs s hu
  rw [h0] at hw hd
  rw [← List.range_eq_range'] at hw hd
  rw [filterMap_range_sub] at hd
  refine ⟨hw, hd, ?_, ?_⟩
  · unfold retainedIndices
    rw [hw, hd, length_filter_not_range]
    omega
  · intro s2 page now hu2
    rw [makeSnapshot_success s2 page now hu2]
    rcases le_or_lt s2.maxScreenshotFiles s2.lastScreenshotIndex with hK | hK
    · simp only [if_pos hK]
      simp [deleteIndices]
    · simp only [if_neg (Nat.not_le.mpr hK)]
      simp [deleteIndices]

/-- Closed instance of C3: five captures with retention limit 3 write
indices 0–4, request deletion of indices 0–1, and retain 3 artifacts. -/
theorem artifact_retention_witness :
    (exampleState.useScreenshots = true ∧ exampleState.lastScreenshotIndex = 0)
    ∧ (writeIndices (runCaptures exampleState
          [(examplePage, 0), (examplePage, 2500), (examplePage, 5000),
           (examplePage, 7500), (examplePage, 10000)]).2.1 = List.range 5
      ∧ deleteIndices (runCaptures exampleState
          [(examplePage, 0), (examplePage, 2500), (examplePage, 5000),
           (examplePage, 7500), (examplePage, 10000)]).2.1
          = List.range (5 - exampleState.maxScreenshotFiles)
      ∧ (retainedIndices (runCaptures exampleState
          [(examplePage, 0), (examplePage, 2500), (examplePage, 5000),
           (examplePage, 7500), (examplePage, 10000)]).2.1).length
          ≤ exampleState.maxScreenshotFiles) :=
  ⟨⟨rfl, rfl⟩,
   let h := artifact_retention exampleState
     [(examplePage, 0), (examplePage, 2500), (examplePage, 5000),
      (examplePage, 7500), (examplePage, 10000)] rfl rfl
   ⟨h.1, h.2.1, h.2.2.1⟩⟩

/-- Refinement comparison value for C4/C9-style constructor facts: the
concrete state `mkServer` produces for `exampleOpts` and port `"4321"`. -/
def exampleOpts : Options :=
  { maxScreenshotFiles := 3, useScreenshots := true }

/-- The server state `mkServer exampleOpts "4321"` constructs. -/
def exampleMkState : ServerState :=
  { maxScreenshotFiles := 3, snapshotTimeoutMillis := 3000
    maxSnapshotFrequencyMillis := 2000, useScreenshots := true
    lastSnapshot := none, lastScreenshotIndex := 0, clientCount := 0
    servingSnapshot := false, port := 4321 }

/-- C4: starting from a freshly constructed server (the constructor sets
`lastScreenshotIndex = 0`) with screenshots enabled, the
`screenshotIndex` values assigned across `N` consecutive successful
captures are exactly `0, 1, …, N−1`: they start at 0, are strictly
increasing and contain no repeats. -/
theorem screenshot_index_monotonic (opts : Options) (cp : String) (s0 : ServerState)
    (h : mkServer opts cp = Except.ok s0) (hu : opts.useScreenshots = true)
    (inputs : List (Page × Nat)) :
    (runCaptures s0 inputs).2.2.map Snapshot.screenshotIndex
      = (List.range inputs.length).map some := by
  have hfields : s0.lastScreenshotIndex = 0 ∧ s0.useScreenshots = true := by
    unfold mkServer at h
    cases hcp : setupHttpServer cp with
    | error e => rw [hcp] at h; exact absurd h (by simp)
    | ok setup =>
        rw [hcp] at h
        injection h with h2
        rw [← h2]
        simpa using hu
  obtain ⟨h0, hu0⟩ := hfields
  have hrun := (runCaptures_spec inputs s0 hu0).2.2.2.2.2
  rw [h0, ← List.range_eq_range'] at hrun
  exact hrun

/-- Closed instance of C4: three captures from a freshly constructed
server get indices 0, 1, 2. -/
theorem screenshot_index_monotonic_witness :
    (mkServer exampleOpts "4321" = Except.ok exampleMkState
      ∧ exampleOpts.useScreenshots = true)
    ∧ (runCaptures exampleMkState
          [(examplePage, 0), (examplePage, 2500), (examplePage, 5000)]).2.2.map
        Snapshot.screenshotIndex
        = (List.range 3).map some :=
  ⟨⟨rfl, rfl⟩,
   screenshot_index_monotonic exampleOpts "4321" exampleMkState rfl rfl
     [(examplePage, 0), (examplePage, 2500), (examplePage, 5000)]⟩

/-- A concrete handler mapping used by the prompt witnesses. -/
def exampleHandlers : HandlerMap Nat :=
  [("ok", fun r => r.payload.length)]

/-- C2 (counterexample to the claim as stated): `prompt` does not return
the response to its caller — its body ends with `this.handleResponse(response)`
and has no `return` statement, so the async call resolves with `undefined`
(`none`), not with the response. -/
theorem prompt_missing_return_cex :
    (promptRun ([] : HandlerMap Nat) "confirm" ⟨"ok", "1"⟩).2 = none
    ∧ ¬ (promptRun ([] : HandlerMap Nat) "confirm" ⟨"ok", "1"⟩).2
          = some ⟨"ok", "1"⟩ :=
  ⟨rfl, by simp [promptRun]⟩

/-- C2 (amended): every `prompt` run broadcasts a `prompt` event carrying
the caller-supplied options, suspends until the inbound answer arrives,
resolves the suspended caller with the parsed answer, and only after that
resolution invokes `handleResponse` on the same parsed value; the
operation itself returns no value (`undefined`) to its caller.  The
dispatch trace is exactly `handleResponse`'s: a warning when the action is
unregistered, a handler invocation on the same answer otherwise. -/
theorem prompt_round_trip {α : Type} (m : HandlerMap α) (options : String)
    (answer : Response) :
    promptRun m options answer
      = ([PromptStep.broadcastPrompt options, PromptStep.awaitAnswer,
          PromptStep.resolveCaller answer] ++ (handleResponse m answer).1, none)
    ∧ ((handleResponse m answer).1 = [PromptStep.warnNoHandler answer]
        ∨ (handleResponse m answer).1 = [PromptStep.invokeHandler answer]) := by
  refine ⟨rfl, ?_⟩
  unfold handleResponse
  cases lookupHandler m answer.action <;> simp

/-- C8: `handleResponse` on a response whose action has no registered
handler logs a warning, invokes no handler and returns `undefined` without
raising; on a registered action it invokes that handler and returns the
handler's result. -/
theorem handleResponse_dispatch {α : Type} :
    (∀ (m : HandlerMap α) (r : Response),
        lookupHandler m r.action = none →
        handleResponse m r = ([PromptStep.warnNoHandler r], none))
    ∧ (∀ (m : HandlerMap α) (r : Response) (f : Response → α),
        lookupHandler m r.action = some f →
        handleResponse m r = ([PromptStep.invokeHandler r], some (f r))) := by
  constructor
  · intro m r h
    simp [handleResponse, h]
  · intro m r f h
    simp [handleResponse, h]

/-- Closed instance of C8 for a missing and a registered action. -/
theorem handleResponse_dispatch_witness :
    (lookupHandler exampleHandlers "missing" = none
      ∧ handleResponse exampleHandlers ⟨"missing", "x"⟩
          = ([PromptStep.warnNoHandler ⟨"missing", "x"⟩], none))
    ∧ (lookupHandler exampleHandlers "ok" = some (fun r => r.payload.length)
      ∧ handleResponse exampleHandlers ⟨"ok", "xy"⟩
          = ([PromptStep.invokeHandler ⟨"ok", "xy"⟩], some 2)) :=
  ⟨⟨rfl, handleResponse_dispatch.1 exampleHandlers ⟨"missing", "x"⟩ rfl⟩,
   ⟨rfl, handleResponse_dispatch.2 exampleHandlers ⟨"ok", "xy"⟩
      (fun r => r.payload.length) rfl⟩⟩

/-- The spec-side characterisation for C9: the container-port value parses
(under JS `parseInt(…, 10)` semantics) to an integer in `0 … 65535`. -/
def portValidSpec (cp : String) : Bool :=
  match parseIntJS cp with
  | some p => decide (0 ≤ p ∧ p ≤ 65535)
  | none => false

/-- C9: constructing a `LivecastServer` throws exactly when the
container-port environment value does not parse to an integer in the range
0 to 65535 — and then `_setupHttpServer` throws before `http.createServer()`,
so no HTTP server is set up — while a valid port makes construction
succeed without raising. -/
theorem construction_validates_port (opts : Options) (cp : String) :
    (mkServer opts cp).isOk = portValidSpec cp
    ∧ (setupHttpServer cp).isOk = portValidSpec cp := by
  have hsetup : (setupHttpServer cp).isOk = portValidSpec cp := by
    unfold setupHttpServer portValidSpec
    cases h : parseIntJS cp
    · rfl
    · dsimp only
      split_ifs with hp <;> simp [hp, Except.isOk, Except.toBool]
  refine ⟨?_, hsetup⟩
  unfold mkServer
  cases h : setupHttpServer cp
  · rw [← hsetup, h]
    rfl
  · rw [← hsetup, h]
    rfl

end Livecast
